import Mathlib

/-!
# Verification of the katzenschreck-fcats frame-acquisition and dispatch pipeline

Shallow embedding of the core logic of `cat_detector/stream_processor.py`,
`cat_detector/rtsp_stream_reader.py` and `cat_detector/object_detector.py`.
Python floats are modelled as rationals (`ℚ`), image buffers as opaque
payload identifiers, and code that raises exceptions as `Except`-valued
functions.  Code that runs under a mutual-exclusion lock is modelled as a
single atomic step on an explicit state record.
-/

set_option autoImplicit false

namespace Katzenschreck

/-- An image buffer, identified only by an opaque payload value; the pixel
contents are irrelevant to every property verified here. -/
structure Frame where
  data : Nat
deriving DecidableEq, Repr

/-! ### Frame resizing (`StreamProcessor._resize_frame_to_fullhd`) -/

/-- Embedding of `StreamProcessor._resize_frame_to_fullhd`
(`stream_processor.py` lines 165-193), tracking only the frame dimensions
`(width, height)`.  The code resizes to exactly 1920x1080 whenever
`width > target_width or height > target_height`, and otherwise returns the
frame unchanged. -/
def resize_frame_to_fullhd (w h : Nat) : Nat × Nat :=
  if 1920 < w ∨ 1080 < h then (1920, 1080) else (w, h)

/-! ### Ignore-zone overlap test (`ObjectDetector`) -/

/-- An axis-aligned box in normalized coordinates, as used by
`ObjectDetector._check_box_overlap` and the configured ignore zone. -/
structure Box where
  xmin : ℚ
  ymin : ℚ
  xmax : ℚ
  ymax : ℚ
deriving DecidableEq, Repr

/-- Embedding of `ObjectDetector._check_box_overlap`
(`object_detector.py` lines 98-102):
`not (box.xmax < iz.xmin or box.xmin > iz.xmax or box.ymax < iz.ymin or
box.ymin > iz.ymax)`. -/
def check_box_overlap (box iz : Box) : Bool :=
  !(box.xmax < iz.xmin || box.xmin > iz.xmax ||
    box.ymax < iz.ymin || box.ymin > iz.ymax)

/-- Embedding of `ObjectDetector._get_box_percentage_coords`
(`object_detector.py` lines 89-96): pixel coordinates divided by the frame
dimensions. -/
def get_box_percentage_coords (x1 y1 x2 y2 fw fh : ℚ) : Box :=
  ⟨x1 / fw, y1 / fh, x2 / fw, y2 / fh⟩

/-- Embedding of `ObjectDetector.is_in_ignore_zone`
(`object_detector.py` lines 71-87).  A missing (`None`) ignore zone never
suppresses; otherwise the bounding box is converted to percentage
coordinates and tested for overlap against the zone. -/
def is_in_ignore_zone (bbox : ℚ × ℚ × ℚ × ℚ) (fw fh : ℚ)
    (ignore_zone : Option Box) : Bool :=
  match ignore_zone with
  | none => false
  | some iz =>
      check_box_overlap
        (get_box_percentage_coords bbox.1 bbox.2.1 bbox.2.2.1 bbox.2.2.2 fw fh)
        ⟨iz.xmin, iz.ymin, iz.xmax, iz.ymax⟩

/-! ### Detections and the dispatch step (`StreamProcessor._process_detections`) -/

/-- One detection as produced by `ObjectDetector.detect_objects`
(`object_detector.py` lines 52-69): class id, confidence, and a pixel
bounding box `[x1, y1, x2, y2]`. -/
structure Detection where
  classId : Nat
  confidence : ℚ
  bbox : ℚ × ℚ × ℚ × ℚ
deriving DecidableEq, Repr

/-- One externally visible side effect of `StreamProcessor._process_detections`:
the synchronous MQTT publish, or an attempted enqueue of a file-save or
database work item. -/
inductive DispatchAction where
  | mqttPublish (classId : Nat) (confidence : ℚ)
  | fileEnqueue (confidence : ℚ)
  | dbEnqueue (confidence : ℚ)
deriving DecidableEq, Repr

/-- Embedding of the per-detection body of `StreamProcessor._process_detections`
(`stream_processor.py` lines 228-278): a detection is skipped (`continue`)
unless `confidence > confidence_threshold` (strict); then skipped when
`is_in_ignore_zone` holds; then skipped when no annotated frame could be
produced from the results; otherwise the MQTT publish happens first,
followed by the file-save enqueue and the database enqueue. -/
def process_one_detection (threshold : ℚ) (fw fh : ℚ) (ignore_zone : Option Box)
    (hasAnnotatedFrame : Bool) (d : Detection) : List DispatchAction :=
  if d.confidence > threshold then
    if is_in_ignore_zone d.bbox fw fh ignore_zone then []
    else if hasAnnotatedFrame then
      [DispatchAction.mqttPublish d.classId d.confidence,
       DispatchAction.fileEnqueue d.confidence,
       DispatchAction.dbEnqueue d.confidence]
    else []
  else []

/-- Embedding of the `for class_id, confidence, bbox in detections` loop of
`StreamProcessor._process_detections`: the batch is processed in order and
the emitted side effects are concatenated. -/
def process_detections (threshold : ℚ) (fw fh : ℚ) (ignore_zone : Option Box)
    (hasAnnotatedFrame : Bool) (ds : List Detection) : List DispatchAction :=
  ds.flatMap (process_one_detection threshold fw fh ignore_zone hasAnnotatedFrame)

/-! ### Dynamic frame skipping (`StreamProcessor.run`, lines 337-346) -/

/-- Embedding of
`avg_processing_time = sum(self.processing_times) / len(self.processing_times)
if self.processing_times else 0` (`stream_processor.py` line 339). -/
def avg_processing_time (times : List ℚ) : ℚ :=
  if times.isEmpty then 0 else times.sum / times.length

/-- Embedding of the `max_frames_to_skip` computation of
`StreamProcessor.run` (`stream_processor.py` lines 340-346) as a function of
the average processing time: when the average exceeds the per-frame budget
`target` (`self.max_processing_time`), the skip count is
`min(int(avg / target) + 2, 10)` (Python `int` truncates, which on the
nonnegative quotient is the floor); otherwise it is the fixed value 3. -/
def frames_to_skip_of_avg (avg target : ℚ) : ℤ :=
  if avg > target then min (⌊avg / target⌋ + 2) 10 else 3

/-- The skip count computed by one iteration of `StreamProcessor.run` from the
recent processing-time history. -/
def max_frames_to_skip (times : List ℚ) (target : ℚ) : ℤ :=
  frames_to_skip_of_avg (avg_processing_time times) target

/-! ### Bounded work queues (`queue.Queue(maxsize=10)` and `put_nowait`) -/

/-- A bounded FIFO queue as created in `StreamProcessor.__init__`
(`stream_processor.py` lines 47-48): `queue.Queue(maxsize=10)`.  A
`maxsize` of 0 means unbounded, as in Python. -/
structure BoundedQueue (α : Type) where
  items : List α
  maxsize : Nat
deriving DecidableEq, Repr

/-- Embedding of `queue.Queue.put_nowait`: raises `queue.Full` (modelled as
`Except.error`) exactly when the queue is bounded and already holds
`maxsize` items; otherwise appends the item. -/
def put_nowait {α : Type} (q : BoundedQueue α) (x : α) :
    Except Unit (BoundedQueue α) :=
  if 0 < q.maxsize ∧ q.maxsize ≤ q.items.length then Except.error ()
  else Except.ok { q with items := q.items ++ [x] }

/-- Outcome of a non-blocking enqueue attempt, as observed by the caller
within the same call (a logged drop or a successful enqueue). -/
inductive EnqueueOutcome where
  | enqueued
  | droppedFull
deriving DecidableEq, Repr

/-- Embedding of `StreamProcessor._save_detection`
(`stream_processor.py` lines 154-163): `put_nowait` on the file queue inside
`try`, with `except queue.Full` logging a skip and `except Exception`
logging an error; no exception escapes the call and on `queue.Full` the
queue is left unchanged. -/
def save_detection (fileQueue : BoundedQueue (Frame × String)) (frame : Frame)
    (timestamp : String) : BoundedQueue (Frame × String) × EnqueueOutcome :=
  match put_nowait fileQueue (frame, timestamp) with
  | Except.ok q => (q, EnqueueOutcome.enqueued)
  | Except.error _ => (fileQueue, EnqueueOutcome.droppedFull)

/-- Embedding of the database enqueue of `StreamProcessor._process_detections`
(`stream_processor.py` lines 270-278): `put_nowait` on the db queue inside
`try`, with `except queue.Full` logging a skip; same drop semantics as
`save_detection`. -/
def db_enqueue (dbQueue : BoundedQueue (Frame × ℚ × String)) (frame : Frame)
    (confidence : ℚ) (timestamp : String) :
    BoundedQueue (Frame × ℚ × String) × EnqueueOutcome :=
  match put_nowait dbQueue (frame, confidence, timestamp) with
  | Except.ok q => (q, EnqueueOutcome.enqueued)
  | Except.error _ => (dbQueue, EnqueueOutcome.droppedFull)

/-! ### The RTSP reader's frame slot (`rtsp_stream_reader.py`)

The fields of `RTSPStreamReader` touched under `self._lock`.  Both the
writer (`_read_loop`, lines 144-154) and the readers (`get_latest_frame`,
`get_frame_age`) take the same lock, so each locked region is modelled as
one atomic operation on this state. -/

/-- The lock-protected state of `RTSPStreamReader` in continuous mode:
the single frame slot `self._frame : Optional[(success, frame)]`,
`self._frame_timestamp`, `self._frame_number`, and the counters
`self._frames_read` / `self._frames_dropped`. -/
structure ReaderState where
  frame : Option (Bool × Frame)
  frameTimestamp : ℚ
  frameNumber : Nat
  framesRead : Nat
  framesDropped : Nat
deriving DecidableEq, Repr

/-- The state set up by `RTSPStreamReader.__init__`
(`rtsp_stream_reader.py` lines 36-48): no frame, timestamp 0, all counters 0. -/
def initialReaderState : ReaderState :=
  { frame := none, frameTimestamp := 0, frameNumber := 0,
    framesRead := 0, framesDropped := 0 }

/-- Embedding of the locked write of one successfully decoded frame in
`RTSPStreamReader._read_loop` (`rtsp_stream_reader.py` lines 144-154):
increment `frames_dropped` when the slot holds a previous successful frame
(`self._frame is not None and self._frame[0]`), then replace the slot with
`(True, frame)`, stamp the capture time and bump the sequence and read
counters. -/
def write_frame (s : ReaderState) (f : Frame) (now : ℚ) : ReaderState :=
  { frame := some (true, f),
    frameTimestamp := now,
    frameNumber := s.frameNumber + 1,
    framesRead := s.framesRead + 1,
    framesDropped :=
      match s.frame with
      | some (true, _) => s.framesDropped + 1
      | _ => s.framesDropped }

/-- Embedding of `RTSPStreamReader.get_latest_frame`
(`rtsp_stream_reader.py` lines 249-271), continuous mode: under the lock,
return `None` when no frame is stored, else a copy of the stored frame with
its capture timestamp and sequence number (or `(False, None, ts, n)` for a
stored failure marker).  The read does not modify the state. -/
def get_latest_frame (s : ReaderState) : Option (Bool × Option Frame × ℚ × Nat) :=
  match s.frame with
  | none => none
  | some (true, f) => some (true, some f, s.frameTimestamp, s.frameNumber)
  | some (false, _) => some (false, none, s.frameTimestamp, s.frameNumber)

/-- Embedding of `RTSPStreamReader.get_frame_age`
(`rtsp_stream_reader.py` lines 273-282): under the lock, return `-1.0` when
`self._frame is None or self._frame_timestamp == 0`, else
`time.time() - self._frame_timestamp` (the current time is passed in
explicitly). -/
def get_frame_age (s : ReaderState) (now : ℚ) : ℚ :=
  if s.frame = none ∨ s.frameTimestamp = 0 then -1 else now - s.frameTimestamp

/-- A lock-granularity event on the reader state: a successful decoded-frame
write by the acquisition thread, or a `get_latest_frame` call by a reader
(which leaves the state unchanged — the code keeps no consumed/unread mark). -/
inductive ReaderEvent where
  | write (f : Frame) (now : ℚ)
  | read
deriving DecidableEq, Repr

/-- State transition for one reader event. -/
def reader_step (s : ReaderState) (e : ReaderEvent) : ReaderState :=
  match e with
  | ReaderEvent.write f now => write_frame s f now
  | ReaderEvent.read => s

/-- The reader state after a sequence of events starting from the initial
state. -/
def run_reader (es : List ReaderEvent) : ReaderState :=
  es.foldl reader_step initialReaderState

/-- The writes contained in an event trace, in order. -/
def trace_writes (es : List ReaderEvent) : List (Frame × ℚ) :=
  es.foldr
    (fun e acc =>
      match e with
      | ReaderEvent.write f now => (f, now) :: acc
      | ReaderEvent.read => acc) []

/-! ### The reconnect-wait of `RTSPStreamReader._read_loop` under `stop()`

`_read_loop` checks `while not self._stopped` only at the top of its outer
loop; on an open failure it executes `time.sleep(retry_delay)`
(`rtsp_stream_reader.py` lines 116-121), and `stop()`
(lines 324-335) merely sets `self._stopped = True`.  `time.sleep` is not
interruptible by a flag, so the model advances a sleeping countdown one
time-unit per step regardless of the stop flag; the flag is consulted only
at the loop-top check. -/

/-- Where the acquisition thread is inside the reconnect path of
`_read_loop`: at the `while not self._stopped` check, `remaining` time-units
into `time.sleep(retry_delay)`, or exited. -/
inductive ReadLoopPhase where
  | checkStop
  | sleeping (remaining : Nat)
  | exited
deriving DecidableEq, Repr

/-- The stop flag (`self._stopped`, shared with `stop()`) together with the
acquisition thread's position in the reconnect path. -/
structure ReadLoopState where
  stopped : Bool
  phase : ReadLoopPhase
deriving DecidableEq, Repr

/-- One time-unit of the acquisition thread on the reconnect path of
`_read_loop`, with the transport open always failing (so the loop-top check
is followed by `time.sleep(retryDelay)`).  A sleeping thread counts its
sleep down irrespective of the stop flag; the flag is only read at
`checkStop`. -/
def read_loop_step (retryDelay : Nat) (s : ReadLoopState) : ReadLoopState :=
  match s.phase with
  | ReadLoopPhase.sleeping (n + 1) => { s with phase := ReadLoopPhase.sleeping n }
  | ReadLoopPhase.sleeping 0 => { s with phase := ReadLoopPhase.checkStop }
  | ReadLoopPhase.checkStop =>
      if s.stopped then { s with phase := ReadLoopPhase.exited }
      else { s with phase := ReadLoopPhase.sleeping retryDelay }
  | ReadLoopPhase.exited => s

/-- Embedding of the effect of `RTSPStreamReader.stop`
(`rtsp_stream_reader.py` line 326) on the shared state: it sets
`self._stopped = True` and nothing else that the sleeping thread observes. -/
def stop_request (s : ReadLoopState) : ReadLoopState :=
  { s with stopped := true }

/-! ### One iteration of the frame loop of `StreamProcessor.run`

The inner `while cap.isOpened()` loop of `StreamProcessor.run`
(`stream_processor.py` lines 324-447) contains no `try`/`except`.  Its
interaction with the outside world in one iteration is abstracted as an
input record: the net outcome of the buffered `cap.read()` calls, and the
outcome of `self.detector.detect_objects(frame)` (which, like any Python
call, may raise).  An uncaught exception is modelled as `Except.error`
propagating out of the iteration — and hence out of `run`, which has no
handler either. -/

/-- The environment of one iteration of the inner frame loop: `frame` is the
last successfully read frame of the skip loop (`none` when every
`cap.read()` failed), `detect` is the result of the detector call on that
frame (a detection list, or a raised exception message). -/
structure IterInput where
  frame : Option Frame
  detect : Except String (List Detection)
deriving Repr

/-- The `StreamProcessor` state the inner frame loop carries across
iterations: `self.processing_times`, the local `frame_read_failures`
counter, and `self._total_frames_processed`. -/
structure IterState where
  processing_times : List ℚ
  frame_read_failures : Nat
  total_frames_processed : Nat
deriving DecidableEq, Repr

/-- How one iteration of the inner frame loop hands control back: continue
with the next frame, or `break` out to reconnect. -/
inductive IterExit where
  | nextFrame
  | reconnect
deriving DecidableEq, Repr

/-- Embedding of one iteration of the inner frame loop of
`StreamProcessor.run` (`stream_processor.py` lines 324-447), with `dur` the
measured total processing time of the iteration.  On a failed read the
failure counter is bumped and the loop breaks to reconnect after
`max_frame_failures = 10`; on a successful read the detector is called with
NO surrounding `try`/`except`, so a detector exception propagates out of
the iteration (`Except.error`); on a normal return the detections are
dispatched, `dur` is appended to `processing_times` (trimmed to the last
10 via `pop(0)`), and the frame counter is bumped. -/
def run_iteration (st : IterState) (inp : IterInput) (dur : ℚ) :
    Except String (IterState × IterExit) :=
  match inp.frame with
  | none =>
      let failures := st.frame_read_failures + 1
      if 10 ≤ failures then
        Except.ok ({ st with frame_read_failures := failures }, IterExit.reconnect)
      else
        Except.ok ({ st with frame_read_failures := failures }, IterExit.nextFrame)
  | some _ =>
      match inp.detect with
      | Except.error e => Except.error e
      | Except.ok _ =>
          let times := st.processing_times ++ [dur]
          Except.ok
            ({ processing_times := if 10 < times.length then times.drop 1 else times,
               frame_read_failures := 0,
               total_frames_processed := st.total_frames_processed + 1 },
             IterExit.nextFrame)

/-! ## Theorems -/

/-- C2 (counterexample): the claim that the resize is downscale-only in each
dimension is false.  A 3000x500 frame has `width > 1920`, so the code
resizes it to exactly 1920x1080 — the height is enlarged from 500 to 1080,
which exceeds the input height. -/
theorem resize_upscales_height :
    resize_frame_to_fullhd 3000 500 = (1920, 1080) ∧
    ¬ (resize_frame_to_fullhd 3000 500).2 ≤ 500 := by decide

/-- C2 (amended): the frame returned by `_resize_frame_to_fullhd` always has
dimensions at most 1920x1080; a frame with both dimensions within the
maximum is returned unchanged; a frame exceeding the maximum in either
dimension is resized to exactly 1920x1080 (which may enlarge the other
dimension — the resize is not per-dimension downscale-only). -/
theorem resize_frame_to_fullhd_spec (w h : Nat) :
    (resize_frame_to_fullhd w h).1 ≤ 1920 ∧
    (resize_frame_to_fullhd w h).2 ≤ 1080 ∧
    (w ≤ 1920 → h ≤ 1080 → resize_frame_to_fullhd w h = (w, h)) ∧
    (1920 < w ∨ 1080 < h → resize_frame_to_fullhd w h = (1920, 1080)) := by
  unfold resize_frame_to_fullhd
  by_cases hc : 1920 < w ∨ 1080 < h
  · rw [if_pos hc]
    exact ⟨by norm_num, by norm_num, fun hw hh => absurd hc (by omega),
      fun _ => rfl⟩
  · rw [if_neg hc]
    exact ⟨by show w ≤ 1920; omega, by show h ≤ 1080; omega, fun _ _ => rfl,
      fun hx => absurd hx hc⟩

/-- C2 witness: the amended theorem applied at an in-bounds frame and an
out-of-bounds 4K frame. -/
theorem resize_frame_to_fullhd_spec_witness :
    resize_frame_to_fullhd 1000 700 = (1000, 700) ∧
    resize_frame_to_fullhd 3840 2160 = (1920, 1080) :=
  ⟨(resize_frame_to_fullhd_spec 1000 700).2.2.1 (by decide) (by decide),
   (resize_frame_to_fullhd_spec 3840 2160).2.2.2 (Or.inl (by decide))⟩

/-- C4: the ignore-zone overlap test declares two boxes overlapping iff none
of the four strict separation conditions holds; it is symmetric in its two
arguments; the edge-touching example box `[0.5,0.5,0.6,0.6]` against the
zone `[0.6,0.6,0.9,0.9]` counts as overlapping, and such a detection is
suppressed (contributes no dispatch action). -/
theorem ignore_zone_overlap_spec :
    (∀ a b : Box, check_box_overlap a b = true ↔
      ¬(a.xmax < b.xmin ∨ a.xmin > b.xmax ∨ a.ymax < b.ymin ∨ a.ymin > b.ymax)) ∧
    (∀ a b : Box, check_box_overlap a b = check_box_overlap b a) ∧
    is_in_ignore_zone (1/2, 1/2, 3/5, 3/5) 1 1 (some ⟨3/5, 3/5, 9/10, 9/10⟩) = true ∧
    process_one_detection (1/2) 1 1 (some ⟨3/5, 3/5, 9/10, 9/10⟩) true
      ⟨15, 9/10, (1/2, 1/2, 3/5, 3/5)⟩ = [] := by
  refine ⟨?_, ?_,
    by norm_num [is_in_ignore_zone, check_box_overlap, get_box_percentage_coords],
    by norm_num [process_one_detection, is_in_ignore_zone, check_box_overlap,
      get_box_percentage_coords]⟩
  · intro a b
    simp [check_box_overlap, not_or]
    tauto
  · intro a b
    rw [Bool.eq_iff_iff]
    simp only [check_box_overlap, gt_iff_lt, Bool.not_eq_true', Bool.or_eq_false_iff,
      decide_eq_false_iff_not]
    tauto

/-- C4 witness: the iff characterization applied to two boxes touching along
an edge, whose separation conditions are discharged concretely. -/
theorem ignore_zone_overlap_spec_witness :
    check_box_overlap ⟨0, 0, 1, 1⟩ ⟨1, 1, 2, 2⟩ = true :=
  (ignore_zone_overlap_spec.1 ⟨0, 0, 1, 1⟩ ⟨1, 1, 2, 2⟩).mpr (by norm_num)

/-- C5: a detection produces dispatch actions only if its confidence is
strictly greater than the threshold; a detection with confidence exactly
equal to the threshold contributes nothing (no MQTT alert, no file or
database enqueue), and removing it from a batch changes nothing. -/
theorem confidence_filter_strict (threshold fw fh : ℚ) (iz : Option Box)
    (ann : Bool) (d : Detection) (ds : List Detection) :
    (process_one_detection threshold fw fh iz ann d ≠ [] →
      threshold < d.confidence) ∧
    (d.confidence = threshold →
      process_one_detection threshold fw fh iz ann d = []) ∧
    (d.confidence = threshold →
      process_detections threshold fw fh iz ann (d :: ds) =
        process_detections threshold fw fh iz ann ds) := by
  have key : d.confidence = threshold →
      process_one_detection threshold fw fh iz ann d = [] := by
    intro h
    unfold process_one_detection
    rw [if_neg]
    rw [h]
    exact lt_irrefl threshold
  refine ⟨?_, key, ?_⟩
  · intro hne
    by_contra hle
    apply hne
    unfold process_one_detection
    rw [if_neg hle]
  · intro h
    unfold process_detections
    rw [List.flatMap_cons, key h, List.nil_append]

/-- C5 witness: a detection whose confidence equals the threshold 1/2 is
suppressed. -/
theorem confidence_filter_strict_witness :
    process_one_detection (1/2) 1920 1080 none true ⟨15, 1/2, (0, 0, 1, 1)⟩ = [] :=
  (confidence_filter_strict (1/2) 1920 1080 none true ⟨15, 1/2, (0, 0, 1, 1)⟩ []).2.1 rfl

/-- C8: enqueueing onto a full bounded queue (file-save or database) returns
within the same call with a drop outcome and leaves the queue contents
unchanged; `save_detection` and `db_enqueue` are total functions — the
`queue.Full` exception of `put_nowait` is absorbed inside the call and
never escapes. -/
theorem enqueue_full_drops (fq : BoundedQueue (Frame × String))
    (dq : BoundedQueue (Frame × ℚ × String)) (f : Frame) (c : ℚ) (ts : String)
    (hf : 0 < fq.maxsize) (hffull : fq.maxsize ≤ fq.items.length)
    (hd : 0 < dq.maxsize) (hdfull : dq.maxsize ≤ dq.items.length) :
    save_detection fq f ts = (fq, EnqueueOutcome.droppedFull) ∧
    db_enqueue dq f c ts = (dq, EnqueueOutcome.droppedFull) := by
  unfold save_detection db_enqueue put_nowait
  rw [if_pos ⟨hf, hffull⟩, if_pos ⟨hd, hdfull⟩]
  exact ⟨rfl, rfl⟩

/-- C8 witness: both queues at their capacity of 10, as configured in
`StreamProcessor.__init__`. -/
theorem enqueue_full_drops_witness :
    save_detection ⟨List.replicate 10 (⟨0⟩, "t"), 10⟩ ⟨1⟩ "u" =
      (⟨List.replicate 10 (⟨0⟩, "t"), 10⟩, EnqueueOutcome.droppedFull) ∧
    db_enqueue ⟨List.replicate 10 (⟨0⟩, 1, "t"), 10⟩ ⟨1⟩ 1 "u" =
      (⟨List.replicate 10 (⟨0⟩, 1, "t"), 10⟩, EnqueueOutcome.droppedFull) :=
  enqueue_full_drops _ _ _ _ _ (by decide) (by simp) (by decide) (by simp)

/-- C10: `get_frame_age` is a total function (it never raises and never
blocks beyond the lock) returning the sentinel `-1` exactly when no frame
is stored or the stored timestamp is 0, and otherwise the current time
minus the stored capture timestamp; the characterization assumes the clock
has not gone backwards past the capture time. -/
theorem get_frame_age_spec (s : ReaderState) (now : ℚ)
    (hnow : s.frameTimestamp ≤ now) :
    (get_frame_age s now = -1 ↔ s.frame = none ∨ s.frameTimestamp = 0) ∧
    (¬(s.frame = none ∨ s.frameTimestamp = 0) →
      get_frame_age s now = now - s.frameTimestamp) := by
  unfold get_frame_age
  by_cases hc : s.frame = none ∨ s.frameTimestamp = 0
  · simp [hc]
  · rw [if_neg hc]
    refine ⟨⟨fun h => ?_, fun h => absurd h hc⟩, fun _ => rfl⟩
    exfalso
    have : (0 : ℚ) ≤ now - s.frameTimestamp := by linarith
    rw [h] at this
    norm_num at this

/-- C10 witness: a stored frame captured at time 2 read at time 5 has age 3,
and the empty initial state yields the sentinel. -/
theorem get_frame_age_spec_witness :
    get_frame_age ⟨some (true, ⟨0⟩), 2, 1, 1, 0⟩ 5 = 3 ∧
    get_frame_age initialReaderState 5 = -1 := by
  constructor
  · have h := (get_frame_age_spec ⟨some (true, ⟨0⟩), 2, 1, 1, 0⟩ 5 (by norm_num)).2
      (not_or.mpr ⟨by simp, by norm_num⟩)
    rw [h]
    norm_num
  · exact (get_frame_age_spec initialReaderState 5
      (by norm_num [initialReaderState])).1.mpr (Or.inl rfl)

/-- C6: the skip count equals `min(floor(avg/target) + 2, 10)` when the
average processing time exceeds the per-frame budget and 3 otherwise, with
the average taken as 0 on an empty history; for a positive budget it is
monotone non-decreasing in the average once the average exceeds the budget,
and saturates at the cap 10. -/
theorem frames_to_skip_spec (times : List ℚ) (target : ℚ) :
    (target < avg_processing_time times →
      max_frames_to_skip times target =
        min (⌊avg_processing_time times / target⌋ + 2) 10) ∧
    (avg_processing_time times ≤ target → max_frames_to_skip times target = 3) ∧
    (times = [] → avg_processing_time times = 0) ∧
    (∀ a b : ℚ, 0 < target → target < a → a ≤ b →
      frames_to_skip_of_avg a target ≤ frames_to_skip_of_avg b target) ∧
    (∀ a : ℚ, 0 < target → 8 * target ≤ a → frames_to_skip_of_avg a target = 10) := by
  refine ⟨?_, ?_, ?_, ?_, ?_⟩
  · intro h
    unfold max_frames_to_skip frames_to_skip_of_avg
    rw [if_pos h]
  · intro h
    unfold max_frames_to_skip frames_to_skip_of_avg
    rw [if_neg (not_lt.mpr h)]
  · intro h
    simp [avg_processing_time, h]
  · intro a b ht hta hab
    unfold frames_to_skip_of_avg
    rw [if_pos hta, if_pos (lt_of_lt_of_le hta hab)]
    refine min_le_min (add_le_add_right ?_ 2) le_rfl
    exact Int.floor_le_floor ((div_le_div_iff_of_pos_right ht).mpr hab)
  · intro a ht h8
    unfold frames_to_skip_of_avg
    have hta : target < a := by nlinarith
    rw [if_pos hta]
    have h8' : (8 : ℚ) ≤ a / target := (le_div_iff₀ ht).mpr (by linarith)
    have hfl : (8 : ℤ) ≤ ⌊a / target⌋ := Int.le_floor.mpr (by exact_mod_cast h8')
    exact min_eq_right (by omega)

/-- C6 witness: with the code's budget of 1 second, a history averaging 3
seconds yields a skip of `min(3+2,10) = 5`, a history averaging 1/2 yields
the fixed 3, and an average of 9 saturates the cap at 10. -/
theorem frames_to_skip_spec_witness :
    max_frames_to_skip [3] 1 = 5 ∧
    max_frames_to_skip [1/2] 1 = 3 ∧
    frames_to_skip_of_avg 9 1 = 10 := by
  refine ⟨?_, ?_, ?_⟩
  · have h := (frames_to_skip_spec [3] 1).1 (by norm_num [avg_processing_time])
    rw [h]
    norm_num [avg_processing_time]
  · exact (frames_to_skip_spec [1/2] 1).2.1 (by norm_num [avg_processing_time])
  · exact (frames_to_skip_spec [] 1).2.2.2.2 9 (by norm_num) (by norm_num)

/-- Reads leave the slot untouched, so running a trace equals folding only
its writes. -/
lemma run_eq_write_fold (es : List ReaderEvent) : ∀ s : ReaderState,
    es.foldl reader_step s =
      (trace_writes es).foldl (fun t fn => write_frame t fn.1 fn.2) s := by
  induction es with
  | nil => intro s; rfl
  | cons e es ih =>
      intro s
      cases e with
      | write f now =>
          simp only [List.foldl_cons, trace_writes, List.foldr_cons]
          exact ih (write_frame s f now)
      | read =>
          simp only [List.foldl_cons, trace_writes, List.foldr_cons]
          exact ih s

/-- Folding a nonempty write list over the slot leaves exactly the last
write's frame and timestamp, and bumps the sequence number once per
write. -/
lemma write_fold_spec (ws : List (Frame × ℚ)) :
    ∀ (s : ReaderState) (w : Frame × ℚ),
      ((w :: ws).foldl (fun t fn => write_frame t fn.1 fn.2) s).frame =
        some (true, ((w :: ws).getLast (List.cons_ne_nil w ws)).1) ∧
      ((w :: ws).foldl (fun t fn => write_frame t fn.1 fn.2) s).frameTimestamp =
        ((w :: ws).getLast (List.cons_ne_nil w ws)).2 ∧
      ((w :: ws).foldl (fun t fn => write_frame t fn.1 fn.2) s).frameNumber =
        s.frameNumber + ws.length + 1 := by
  induction ws with
  | nil =>
      intro s w
      simp [write_frame, List.getLast]
  | cons w' ws' ih =>
      intro s w
      have h := ih (write_frame s w.1 w.2) w'
      simp only [List.foldl_cons] at h ⊢
      rw [List.getLast_cons (List.cons_ne_nil w' ws')]
      refine ⟨h.1, h.2.1, ?_⟩
      rw [h.2.2]
      simp only [write_frame, List.length_cons]
      omega

/-- Specialization of `write_fold_spec` to the initial state and an
arbitrary nonempty write list. -/
lemma write_fold_last (ws : List (Frame × ℚ)) (h : ws ≠ []) :
    (ws.foldl (fun t fn => write_frame t fn.1 fn.2) initialReaderState).frame =
      some (true, (ws.getLast h).1) ∧
    (ws.foldl (fun t fn => write_frame t fn.1 fn.2) initialReaderState).frameTimestamp =
      (ws.getLast h).2 ∧
    (ws.foldl (fun t fn => write_frame t fn.1 fn.2) initialReaderState).frameNumber =
      ws.length := by
  obtain ⟨w, ws', rfl⟩ := List.exists_cons_of_ne_nil h
  have hspec := write_fold_spec ws' initialReaderState w
  refine ⟨hspec.1, hspec.2.1, ?_⟩
  rw [hspec.2.2]
  simp [initialReaderState]

/-- C3: after any sequence of acquisition-thread writes and reader reads,
`get_latest_frame` returns either `None` (no write has happened) or the
complete frame/timestamp pair of one previous write — the most recent one —
together with the sequence number counting all writes; never a torn mix of
two writes.  Moreover every write replaces the single slot with exactly
the new frame (no accumulation). -/
theorem latest_frame_integrity (es : List ReaderEvent) :
    (trace_writes es = [] → get_latest_frame (run_reader es) = none) ∧
    (trace_writes es ≠ [] → ∃ w ∈ trace_writes es,
      get_latest_frame (run_reader es) =
        some (true, some w.1, w.2, (trace_writes es).length)) ∧
    (∀ (s : ReaderState) (f : Frame) (now : ℚ),
      (write_frame s f now).frame = some (true, f)) := by
  refine ⟨?_, ?_, fun s f now => rfl⟩
  · intro h
    unfold run_reader
    rw [run_eq_write_fold, h]
    rfl
  · intro h
    refine ⟨(trace_writes es).getLast h, List.getLast_mem h, ?_⟩
    unfold run_reader
    rw [run_eq_write_fold]
    have hspec := write_fold_last (trace_writes es) h
    unfold get_latest_frame
    rw [hspec.1, hspec.2.1, hspec.2.2]

/-- C3 witness: a write followed by a read yields exactly the written frame,
its timestamp and sequence number 1. -/
theorem latest_frame_integrity_witness :
    ∃ w ∈ trace_writes [ReaderEvent.write ⟨5⟩ 1, ReaderEvent.read],
      get_latest_frame (run_reader [ReaderEvent.write ⟨5⟩ 1, ReaderEvent.read]) =
        some (true, some w.1, w.2,
          (trace_writes [ReaderEvent.write ⟨5⟩ 1, ReaderEvent.read]).length) :=
  (latest_frame_integrity [ReaderEvent.write ⟨5⟩ 1, ReaderEvent.read]).2.1
    (by simp [trace_writes])

/-- C9 (code evaluated at the failing input): frame 1 is written at time 1
and then consumed by a `get_latest_frame` read, after which frame 2
overwrites it — yet `frames_dropped` is incremented to 1, because the
increment condition in `_read_loop` only tests that a successful frame is
present (`self._frame is not None and self._frame[0]`); the read leaves no
consumed mark on the state, contradicting the inline comment
"(if we're overwriting an unread frame)". -/
theorem frames_dropped_counts_consumed_overwrite :
    get_latest_frame (run_reader [ReaderEvent.write ⟨1⟩ 1, ReaderEvent.read]) =
      some (true, some ⟨1⟩, 1, 1) ∧
    reader_step (run_reader [ReaderEvent.write ⟨1⟩ 1]) ReaderEvent.read =
      run_reader [ReaderEvent.write ⟨1⟩ 1] ∧
    (run_reader [ReaderEvent.write ⟨1⟩ 1, ReaderEvent.read,
        ReaderEvent.write ⟨2⟩ 2]).framesDropped = 1 := by
  refine ⟨rfl, rfl, rfl⟩

/-- C1 (counterexample): an exception raised by the detector during one
iteration of the frame loop is NOT caught — `run` has no `try`/`except` —
so it propagates out of the iteration and terminates the processing loop,
contradicting the claim that any such exception is caught and treated as a
skipped frame. -/
theorem detector_exception_escapes_iteration :
    run_iteration ⟨[], 0, 0⟩ ⟨some ⟨0⟩, Except.error "detector failure"⟩ 1 =
      Except.error "detector failure" := rfl

/-- C1 (amended): an iteration of the frame loop raises exactly when the
detector call raises (that exception escapes the iteration and, since
`run` has no handler, terminates the loop); every other iteration —
including every iteration whose frame read fails — returns normally, with
read failures merely counted and converted into a reconnect after 10
consecutive failures.  Exceptions while enqueueing side-effect work items
are caught inside `_save_detection`/`_process_detections` (see
`save_detection` and `db_enqueue`). -/
theorem run_iteration_exception_semantics (st : IterState) (inp : IterInput)
    (dur : ℚ) :
    (∀ f e, inp.frame = some f → inp.detect = Except.error e →
      run_iteration st inp dur = Except.error e) ∧
    (∀ e, run_iteration st inp dur = Except.error e →
      ∃ f, inp.frame = some f ∧ inp.detect = Except.error e) ∧
    (inp.frame = none → ∃ r, run_iteration st inp dur = Except.ok r) := by
  obtain ⟨fr, det⟩ := inp
  refine ⟨?_, ?_, ?_⟩
  · rintro f e hf hd
    cases hf
    cases hd
    rfl
  · intro e he
    cases fr with
    | none =>
        exfalso
        unfold run_iteration at he
        dsimp only at he
        split at he <;> exact Except.noConfusion he
    | some f =>
        cases det with
        | error e' =>
            have he' : Except.error (ε := String)
                (α := IterState × IterExit) e' = Except.error e := he
            cases he'
            exact ⟨f, rfl, rfl⟩
        | ok ds => exact Except.noConfusion he
  · rintro rfl
    unfold run_iteration
    dsimp only
    split
    · exact ⟨_, rfl⟩
    · exact ⟨_, rfl⟩

/-- C1 witness: the amended characterization applied at a concrete raising
detector and at a concrete failed read. -/
theorem run_iteration_exception_semantics_witness :
    run_iteration ⟨[1], 3, 7⟩ ⟨some ⟨9⟩, Except.error "boom"⟩ 1 =
      Except.error "boom" ∧
    ∃ r, run_iteration ⟨[1], 3, 7⟩ ⟨none, Except.ok []⟩ 1 = Except.ok r :=
  ⟨(run_iteration_exception_semantics ⟨[1], 3, 7⟩
      ⟨some ⟨9⟩, Except.error "boom"⟩ 1).1 ⟨9⟩ "boom" rfl rfl,
   (run_iteration_exception_semantics ⟨[1], 3, 7⟩
      ⟨none, Except.ok []⟩ 1).2.2 rfl⟩

/-- A sleeping acquisition thread counts its sleep down one unit per step,
regardless of the stop flag. -/
lemma sleep_countdown (d n : Nat) : ∀ k, k ≤ n →
    (read_loop_step d)^[k] ⟨true, ReadLoopPhase.sleeping n⟩ =
      ⟨true, ReadLoopPhase.sleeping (n - k)⟩ := by
  intro k
  induction k with
  | zero => intro _; rfl
  | succ k ih =>
      intro hk
      rw [Function.iterate_succ_apply', ih (Nat.le_of_succ_le hk)]
      have hrw : n - k = (n - (k + 1)) + 1 := by omega
      rw [hrw]
      rfl

/-- C7 (counterexample): with the backoff at its 30-unit cap, a stop
requested at the start of the retry sleep is not observed for the next 31
steps — the activity is still asleep or only just reaching the loop-top
check — and only on the 32nd step does it exit.  It sleeps out the full
backoff instead of waking promptly. -/
theorem stop_sleeps_out_backoff :
    (stop_request ⟨false, ReadLoopPhase.sleeping 30⟩).stopped = true ∧
    ((read_loop_step 30)^[31]
        (stop_request ⟨false, ReadLoopPhase.sleeping 30⟩)).phase ≠
      ReadLoopPhase.exited ∧
    ((read_loop_step 30)^[32]
        (stop_request ⟨false, ReadLoopPhase.sleeping 30⟩)).phase =
      ReadLoopPhase.exited := by
  refine ⟨rfl, ?_, ?_⟩ <;> decide

/-- C7 (amended): a stop requested while the acquisition thread is `n`
time-units from the end of its retry sleep is observed only after the
sleep completes: the thread exits after exactly `n + 2` steps (finish the
sleep, reach the loop-top check, exit) and at no earlier step — it never
abandons an in-progress wait. -/
theorem stop_observed_after_sleep (d n : Nat) :
    (read_loop_step d)^[n + 2] ⟨true, ReadLoopPhase.sleeping n⟩ =
      ⟨true, ReadLoopPhase.exited⟩ ∧
    (∀ k, k < n + 2 →
      ((read_loop_step d)^[k] ⟨true, ReadLoopPhase.sleeping n⟩).phase ≠
        ReadLoopPhase.exited) := by
  have h0 := sleep_countdown d n n le_rfl
  have h1 : (read_loop_step d)^[n + 1] ⟨true, ReadLoopPhase.sleeping n⟩ =
      ⟨true, ReadLoopPhase.checkStop⟩ := by
    rw [Function.iterate_succ_apply', h0, Nat.sub_self]
    rfl
  constructor
  · have : n + 2 = (n + 1) + 1 := rfl
    rw [this, Function.iterate_succ_apply', h1]
    rfl
  · intro k hk
    rcases Nat.lt_or_ge k (n + 1) with hlt | hge
    · rw [sleep_countdown d n k (by omega)]
      simp
    · have hk1 : k = n + 1 := by omega
      rw [hk1, h1]
      simp

/-- C7 witness: the amended theorem applied with a 2-unit backoff and a stop
requested 1 unit into the remaining sleep. -/
theorem stop_observed_after_sleep_witness :
    (read_loop_step 2)^[3] ⟨true, ReadLoopPhase.sleeping 1⟩ =
      ⟨true, ReadLoopPhase.exited⟩ ∧
    ((read_loop_step 2)^[1] ⟨true, ReadLoopPhase.sleeping 1⟩).phase ≠
      ReadLoopPhase.exited :=
  ⟨(stop_observed_after_sleep 2 1).1,
   (stop_observed_after_sleep 2 1).2 1 (by omega)⟩

end Katzenschreck
